import Mathlib

/-!
Verification of the brutalist-ui MCP server's caching + registry-query layer.

The development shallowly embeds the TypeScript sources:
  * `src/schemas/registry.ts`  — zod data model (structures below);
  * `src/utils/api.ts`         — cache, registry client, query layer;
  * `src/index.ts`             — CLI argument parsing and base-URL resolution;
  * `src/utils/docs.ts`        — documentation extractor and static docs catalog
    (the repository also carries a revised variant of the extractor with a
    non-throwing fallback; both are embedded).

JS strings are Lean `String`s; JS objects used as string-keyed maps are
association lists (first match wins, keys unique for zod-validated data);
`Date.now()` timestamps are `Int`; the network and the filesystem are oracle
parameters; thrown exceptions become `Except`/`Option` results. Case mapping
(`toLowerCase`/`toUpperCase`) is modelled on ASCII via `Char.toLower` /
`Char.toUpper`, which agrees with JS on the registry's ASCII data.
-/

namespace Brutalist

/-! ## JS string helpers -/

/-- JS truthiness of a possibly-absent string: `undefined` and `""` are falsy. -/
def jsTruthyOpt : Option String → Bool
  | some s => !s.isEmpty
  | none => false

/-- `String.prototype.toLowerCase` restricted to ASCII. -/
def jsToLower (s : String) : String := ⟨s.data.map Char.toLower⟩

/-- `String.prototype.toUpperCase` restricted to ASCII (used on one character). -/
def jsToUpperChar (c : Char) : Char := c.toUpper

/-- Does `needle` occur as a contiguous substring of the character list? -/
def includesAux (needle : List Char) : List Char → Bool
  | [] => needle.isEmpty
  | c :: rest => needle.isPrefixOf (c :: rest) || includesAux needle rest

/-- `String.prototype.includes`. -/
def strIncludes (hay needle : String) : Bool := includesAux needle.data hay.data

/-- JS `s.trim()` is truthy iff some character of `s` is not whitespace. -/
def trimNonEmpty (s : String) : Bool := s.data.any (fun c => !c.isWhitespace)

/-- `name.charAt(0).toUpperCase() + name.slice(1)` (both docs modules use this). -/
def capitalize (s : String) : String :=
  match s.data with
  | [] => ""
  | c :: rest => ⟨jsToUpperChar c :: rest⟩

/-! ## Data model (src/schemas/registry.ts) -/

/-- `RegistryComponentSchema`: one entry of the index's `components` array. -/
structure RegistryComponent where
  name : String
  title : String
  description : String
  type : String
  categories : List String
  featured : Bool
  url : String
deriving DecidableEq

/-- `CategorySchema`: one value of the index's `categories` record. -/
structure Category where
  title : String
  description : String
deriving DecidableEq

/-- The index's optional `meta` block. -/
structure RegistryMeta where
  lastUpdated : String
  totalComponents : Int
  maintainer : String
deriving DecidableEq

/-- `RegistryIndexSchema`. The `categories` record is an association list with
distinct keys (a zod `record` parsed from a JS object). `$schema` is dropped:
no code reads it. -/
structure RegistryIndex where
  name : String
  description : String
  version : String
  framework : String
  baseUrl : String
  components : List RegistryComponent
  categories : List (String × Category)
  meta : Option RegistryMeta
deriving DecidableEq

/-- `ComponentFileSchema` before its `.refine` check. -/
structure ComponentFile where
  path : Option String
  name : Option String
  type : Option String
  target : Option String
  language : Option String
  content : String
deriving DecidableEq

/-- The zod refine on `ComponentFileSchema`: `(data) => data.path || data.name`
(JS truthiness, so empty strings do not count). -/
def componentFileOk (f : ComponentFile) : Bool :=
  jsTruthyOpt f.path || jsTruthyOpt f.name

/-- `theme: z.enum(['classic', 'modern', 'experimental'])`. -/
inductive BrutalistTheme
  | classic
  | modern
  | experimental
deriving DecidableEq

/-- `BrutalistFeaturesSchema`. -/
structure BrutalistFeatures where
  hasThickBorders : Option Bool
  hasShadows : Option Bool
  hasSharpCorners : Option Bool
  hasHighContrast : Option Bool
  hasAnimations : Option Bool
  hasGlitchEffects : Option Bool
  theme : Option BrutalistTheme
deriving DecidableEq

/-- `z.union([z.array(z.string()), z.record(z.string())])` for dependencies. -/
inductive DependencyList
  | arr (items : List String)
  | record (entries : List (String × String))
deriving DecidableEq

/-- `ComponentSchema` (the component-detail document). `$schema` is `schemaUrl`
since `$` cannot appear in a Lean name. -/
structure Component where
  schemaUrl : Option String
  name : String
  type : Option String
  title : Option String
  description : String
  author : Option String
  version : String
  framework : Option String
  frameworks : Option (List String)
  brutalistFeatures : Option BrutalistFeatures
  categories : Option (List String)
  category : Option String
  tags : Option (List String)
  dependencies : Option DependencyList
  peerDependencies : Option DependencyList
  files : List ComponentFile
  lastUpdated : Option String
deriving DecidableEq

/-! ## Cache (src/utils/api.ts lines 5-32) -/

/-- `CACHE_TTL = 5 * 60 * 1000`. -/
def CACHE_TTL : Int := 5 * 60 * 1000

/-- The module-level `cache` Map: key, data, timestamp. Keys are unique
(`Map.set` overwrites), modelled by removing any shadowed entry on `set`. -/
abbrev CacheMap (α : Type) : Type := List (String × α × Int)

/-- `getFromCache`: the stored value only if `now - timestamp < CACHE_TTL`;
an expired entry is not returned but also not removed. -/
def getFromCache {α : Type} (cache : CacheMap α) (key : String) (now : Int) : Option α :=
  match cache.find? (fun e => e.1 == key) with
  | some e => if now - e.2.2 < CACHE_TTL then some e.2.1 else none
  | none => none

/-- `setCache`: unconditionally overwrite, stamping the current time. -/
def setCache {α : Type} (cache : CacheMap α) (key : String) (data : α) (now : Int) :
    CacheMap α :=
  (key, data, now) :: cache.filter (fun e => !(e.1 == key))

/-! ## Registry client (src/utils/api.ts lines 37-78) -/

/-- A decoded 2xx response body: either it fits the zod shape or not. -/
inductive JsonBody (α : Type)
  | wellShaped (v : α)
  | malformed (desc : String)

/-- What one `axios.get` did: 2xx with a decoded body, a 404 response, or any
other transport failure carrying the axios error message. -/
inductive HttpResponse (α : Type)
  | ok (body : JsonBody α)
  | notFound
  | transportError (msg : String)

/-- How one client operation ended. The source throws plain `Error`s; the
constructors record which catch branch produced the message. -/
inductive FetchOutcome (α : Type)
  | success (v : α)
  | notFoundError (msg : String)
  | fetchError (msg : String)
  | parseError (msg : String)
deriving DecidableEq

/-- The client's module state: the cache plus a count of network GETs issued
(the count instruments `axios.get`; it is not a source variable). -/
structure FetchState (α : Type) where
  cache : CacheMap α
  networkCalls : Nat
deriving DecidableEq

/-- `RegistryIndexSchema.parse`: no refinement, so a well-shaped body parses. -/
def parseRegistryIndex : JsonBody RegistryIndex → Except String RegistryIndex
  | .wellShaped idx => .ok idx
  | .malformed desc => .error desc

/-- `ComponentSchema.parse`: shape plus the per-file refine check. -/
def parseComponent : JsonBody Component → Except String Component
  | .wellShaped c =>
      if c.files.all componentFileOk then .ok c
      else .error "Either \x27path\x27 or \x27name\x27 must be provided"
  | .malformed desc => .error desc

/-- `fetchRegistryIndex`. Cache key `registry-index`; on a miss one GET of
`{baseUrl}/index.json` (the oracle `http`); any axios error, 404 included,
becomes the index's generic fetch error. -/
def fetchRegistryIndex (http : HttpResponse RegistryIndex)
    (st : FetchState RegistryIndex) (now : Int) :
    FetchOutcome RegistryIndex × FetchState RegistryIndex :=
  match getFromCache st.cache "registry-index" now with
  | some idx => (.success idx, st)
  | none =>
    match http with
    | .ok body =>
      match parseRegistryIndex body with
      | .ok idx =>
        (.success idx,
         { cache := setCache st.cache "registry-index" idx now,
           networkCalls := st.networkCalls + 1 })
      | .error e =>
        (.parseError ("Failed to parse registry index: " ++ e),
         { st with networkCalls := st.networkCalls + 1 })
    | .notFound =>
      (.fetchError "Failed to fetch registry index: Request failed with status code 404",
       { st with networkCalls := st.networkCalls + 1 })
    | .transportError m =>
      (.fetchError ("Failed to fetch registry index: " ++ m),
       { st with networkCalls := st.networkCalls + 1 })

/-- `fetchComponent`. Cache key `component-{name}`; GET `{baseUrl}/{name}.json`;
404 is reported as the component not being in the registry, other transport
failures and schema failures keep their own messages. -/
def fetchComponent (componentName : String) (http : HttpResponse Component)
    (st : FetchState Component) (now : Int) :
    FetchOutcome Component × FetchState Component :=
  match getFromCache st.cache ("component-" ++ componentName) now with
  | some c => (.success c, st)
  | none =>
    match http with
    | .ok body =>
      match parseComponent body with
      | .ok comp =>
        (.success comp,
         { cache := setCache st.cache ("component-" ++ componentName) comp now,
           networkCalls := st.networkCalls + 1 })
      | .error e =>
        (.parseError ("Failed to parse component \x27" ++ componentName ++ "\x27: " ++ e),
         { st with networkCalls := st.networkCalls + 1 })
    | .notFound =>
      (.notFoundError ("Component \x27" ++ componentName ++ "\x27 not found in registry"),
       { st with networkCalls := st.networkCalls + 1 })
    | .transportError m =>
      (.fetchError ("Failed to fetch component \x27" ++ componentName ++ "\x27: " ++ m),
       { st with networkCalls := st.networkCalls + 1 })

/-! ## Query layer (src/utils/api.ts lines 86-227) -/

/-- The `filters` object echoed by `searchComponents`. -/
structure SearchFilters where
  category : Option String
  featured : Option Bool
deriving DecidableEq

/-- The value resolved by `searchComponents`. -/
structure SearchResult where
  results : List RegistryComponent
  total : Nat
  query : String
  filters : SearchFilters
deriving DecidableEq

/-- The text filter's per-component test: case-insensitive substring of
`name`, `title` or `description`. -/
def matchesQuery (query : String) (c : RegistryComponent) : Bool :=
  strIncludes (jsToLower c.name) (jsToLower query) ||
  strIncludes (jsToLower c.title) (jsToLower query) ||
  strIncludes (jsToLower c.description) (jsToLower query)

/-- First reassignment of `searchComponents`: `if (category) results =
results.filter(c => c.categories.includes(category))` — JS truthiness, so an
empty-string category skips the filter. -/
def categoryStep (category : Option String) (l : List RegistryComponent) :
    List RegistryComponent :=
  match category with
  | some cat => if cat.isEmpty then l
                else l.filter (fun c => c.categories.contains cat)
  | none => l

/-- Second reassignment: `if (featured !== undefined) results =
results.filter(c => c.featured === featured)`. -/
def featuredStep (featured : Option Bool) (l : List RegistryComponent) :
    List RegistryComponent :=
  match featured with
  | some b => l.filter (fun c => c.featured == b)
  | none => l

/-- Third reassignment: `if (query.trim()) results = results.filter(...)`,
the case-insensitive substring match. -/
def queryStep (query : String) (l : List RegistryComponent) :
    List RegistryComponent :=
  if trimNonEmpty query then l.filter (fun c => matchesQuery query c) else l

/-- `searchComponents(query, category?, featured?)`: the three sequential
conditional filters applied to `registryIndex.components`. -/
def searchComponents (query : String) (category : Option String)
    (featured : Option Bool) (idx : RegistryIndex) : SearchResult :=
  let results := queryStep query (featuredStep featured (categoryStep category idx.components))
  { results := results, total := results.length, query := query,
    filters := { category := category, featured := featured } }

/-- The value resolved by `getComponentsByCategory`. -/
structure CategoryComponentsResult where
  category : String
  categoryInfo : Option Category
  components : List RegistryComponent
  total : Nat
deriving DecidableEq

/-- `getComponentsByCategory(category)`: membership filter plus
`registryIndex.categories[category] || null` (a present record value is an
object, always truthy, so `null` arises exactly from an absent key). -/
def getComponentsByCategory (idx : RegistryIndex) (category : String) :
    CategoryComponentsResult :=
  let components := idx.components.filter (fun c => c.categories.contains category)
  { category := category,
    categoryInfo := idx.categories.lookup category,
    components := components,
    total := components.length }

/-- One value of the map returned by `getCategories`. -/
structure CategoryWithCount where
  title : String
  description : String
  count : Nat
deriving DecidableEq

/-- The value resolved by `getCategories`. -/
structure CategoriesResult where
  categories : List (String × CategoryWithCount)
  total : Nat
deriving DecidableEq

/-- The `categoryCounts` accumulator: the double `forEach` increments once per
occurrence, so the count looked up for `key` is the total number of times
`key` occurs across the components' `categories` arrays. -/
def categoryOccurrences (comps : List RegistryComponent) (key : String) : Nat :=
  (comps.map (fun c => c.categories.count key)).sum

/-- The `categories` object built by `getCategories`: one entry per entry of
the index's category map, with `categoryCounts[key] || 0` as the count. -/
def getCategoriesEntries (idx : RegistryIndex) : List (String × CategoryWithCount) :=
  idx.categories.map (fun p =>
    (p.1, { title := p.2.title, description := p.2.description,
            count := categoryOccurrences idx.components p.1 }))

/-- `getCategories()`: the built object plus `Object.keys(categories).length`. -/
def getCategories (idx : RegistryIndex) : CategoriesResult :=
  { categories := getCategoriesEntries idx,
    total := (getCategoriesEntries idx).length }

/-- The value resolved by `getFeaturedComponents`. -/
structure FeaturedResult where
  components : List RegistryComponent
  total : Nat
deriving DecidableEq

/-- `getFeaturedComponents()`: `filter(component => component.featured)`. -/
def getFeaturedComponents (idx : RegistryIndex) : FeaturedResult :=
  let featuredComponents := idx.components.filter (fun c => c.featured)
  { components := featuredComponents, total := featuredComponents.length }

/-- The `stats` block of `getRegistryInfo`. -/
structure RegistryStats where
  totalComponents : Nat
  featuredComponents : Nat
  categoriesCount : Nat
  lastUpdated : Option String
deriving DecidableEq

/-- The value resolved by `getRegistryInfo`. -/
structure RegistryInfoResult where
  registry : RegistryIndex
  stats : RegistryStats
deriving DecidableEq

/-- `getRegistryInfo()`. `meta?.lastUpdated || null` is null when `meta` is
absent, and also when `lastUpdated` is the (falsy) empty string. -/
def getRegistryInfo (idx : RegistryIndex) : RegistryInfoResult :=
  { registry := idx,
    stats :=
      { totalComponents := idx.components.length,
        featuredComponents := (idx.components.filter (fun c => c.featured)).length,
        categoriesCount := (idx.categories.map Prod.fst).length,
        lastUpdated :=
          match idx.meta with
          | some m => if m.lastUpdated.isEmpty then none else some m.lastUpdated
          | none => none } }

/-! ## Base-URL resolution (src/utils/api.ts lines 5-7 and src/index.ts) -/

/-- `REGISTRY_BASE_URL` as the registry client module computes it at load:
the only input is `process.env.NODE_ENV`; the `REGISTRY_BASE_URL` environment
variable set by `main()` is never read here. -/
def clientRegistryBaseUrl (nodeEnv : Option String) : String :=
  if nodeEnv == some "production" then "https://brutalist.precast.dev/registry/react"
  else "http://localhost:3000/registry/react"

/-- The URL `fetchRegistryIndex` passes to `axios.get`. -/
def registryIndexRequestUrl (nodeEnv : Option String) : String :=
  clientRegistryBaseUrl nodeEnv ++ "/index.json"

/-- The URL `fetchComponent` passes to `axios.get`. -/
def componentRequestUrl (nodeEnv : Option String) (componentName : String) : String :=
  clientRegistryBaseUrl nodeEnv ++ "/" ++ componentName ++ ".json"

/-- `parseArgs()` (index.ts): the value following `--registry-url`, kept only
when present and truthy. -/
def parseArgsRegistryUrl (args : List String) : Option String :=
  match args.findIdx? (fun a => a == "--registry-url") with
  | none => none
  | some i =>
    match args.get? (i + 1) with
    | some url => if url.isEmpty then none else some url
    | none => none

/-- The value `main()` (index.ts) stores into `process.env.REGISTRY_BASE_URL`:
the override when truthy, else localhost when NODE_ENV is development/dev or
`--dev` was passed, else the production default. -/
def mainRegistryEnvValue (registryUrl : Option String) (nodeEnv : Option String)
    (argvHasDevFlag : Bool) : String :=
  if jsTruthyOpt registryUrl then registryUrl.getD ""
  else
    let isDev := nodeEnv == some "development" || nodeEnv == some "dev" || argvHasDevFlag
    (if isDev then "http://localhost:3000" else "https://brutalist.precast.dev")
      ++ "/registry/react"

/-! ## Documentation module (src/utils/docs.ts and the revised extractor) -/

/-- The `accessibility` block of a `DocumentationSection`. -/
structure Accessibility where
  keyboardSupport : List String
  ariaAttributes : List String
  bestPractices : List String
deriving DecidableEq

/-- One `props` entry of an `apiReference`. -/
structure PropDoc where
  name : String
  type : String
  defaultValue : Option String
  description : String
  required : Option Bool
deriving DecidableEq

/-- The `apiReference` block of a `DocumentationSection`. -/
structure ApiReference where
  props : List PropDoc
deriving DecidableEq

/-- The `DocumentationSection` interface. Both extractor variants always
assign `examples`, so it is a plain list here. -/
structure DocumentationSection where
  title : String
  description : String
  content : String
  examples : List String
  accessibility : Option Accessibility
  apiReference : Option ApiReference
deriving DecidableEq

/-- `extractAPIReference`: a declared no-op, always `undefined`. -/
def extractAPIReference (_content : String) : Option ApiReference := none

/-- The regex-based extraction subroutines (`extractTitle`,
`extractDescription`, `extractMainContent`, `extractExamples`,
`extractAccessibility`) as functions of the file content. Their JS-regex
internals are kept abstract: no claim depends on what they match, only on
when they run. -/
structure HtmlExtractors where
  extractTitle : String → String
  extractDescription : String → String
  extractMainContent : String → String
  extractExamples : String → List String
  extractAccessibility : String → Option Accessibility

/-- A filesystem read: the file's text or the thrown error's message. -/
abbrev FileRead := String → Except String String

/-- The docs path `extractComponentDocumentation` (docs.ts) resolves: six
special-cased names, every other name mapped by the capitalized-`{Name}Page`
convention. -/
def docsPath (componentName : String) : String :=
  if componentName == "aspect-ratio" then
    "/home/sacha/repositories/brutalist-components/apps/website/src/pages/docs/components/aspect-ratio.tsx"
  else if componentName == "pagination" then
    "/home/sacha/repositories/brutalist-components/apps/website/src/pages/docs/components/pagination.tsx"
  else if componentName == "bar-chart" then
    "/home/sacha/repositories/brutalist-components/apps/website/src/pages/docs/components/BarChartPage.tsx"
  else if componentName == "line-chart" then
    "/home/sacha/repositories/brutalist-components/apps/website/src/pages/docs/components/LineChartPage.tsx"
  else if componentName == "table-of-contents" then
    "/home/sacha/repositories/brutalist-components/apps/website/src/pages/docs/components/TableOfContentsPage.tsx"
  else if componentName == "shapes" then
    "/home/sacha/repositories/brutalist-components/apps/website/src/pages/docs/ShapesPage.tsx"
  else
    "/home/sacha/repositories/brutalist-components/apps/website/src/pages/docs/components/"
      ++ capitalize componentName ++ "Page.tsx"

/-- `extractComponentDocumentation` as src/utils/docs.ts ships it: one
`readFileSync` of the resolved path; on success the six extraction
subroutines; a failed read is caught and re-thrown as
`Failed to extract documentation for {name}: {message}`. -/
def extractComponentDocumentation (ex : HtmlExtractors) (fs : FileRead)
    (componentName : String) : Except String DocumentationSection :=
  match fs (docsPath componentName) with
  | .ok content =>
    .ok { title := ex.extractTitle content,
          description := ex.extractDescription content,
          content := ex.extractMainContent content,
          examples := ex.extractExamples content,
          accessibility := ex.extractAccessibility content,
          apiReference := extractAPIReference content }
  | .error msg =>
    .error ("Failed to extract documentation for " ++ componentName ++ ": " ++ msg)

/-- The special-case table of the revised extractor (part_005 lines 677-684). -/
def specialCases (componentName : String) : Option String :=
  List.lookup componentName
    [("bar-chart", "/home/sacha/repositories/brutalist-components/apps/website/src/pages/docs/components/BarChartPage.tsx"),
     ("line-chart", "/home/sacha/repositories/brutalist-components/apps/website/src/pages/docs/components/LineChartPage.tsx"),
     ("table-of-contents", "/home/sacha/repositories/brutalist-components/apps/website/src/pages/docs/components/TableOfContentsPage.tsx"),
     ("shapes", "/home/sacha/repositories/brutalist-components/apps/website/src/pages/docs/ShapesPage.tsx"),
     ("pagination", "/home/sacha/repositories/brutalist-components/apps/website/src/pages/docs/components/pagination.tsx"),
     ("aspect-ratio", "/home/sacha/repositories/brutalist-components/apps/website/src/pages/docs/components/aspect-ratio.tsx")]

/-- The `potentialPaths` list of the revised extractor (part_005 lines 665-674). -/
def potentialPaths (componentName : String) : List String :=
  ["/home/sacha/repositories/brutalist-components/apps/website/src/pages/docs/components/"
     ++ capitalize componentName ++ "Page.tsx",
   "/home/sacha/repositories/brutalist-components/apps/website/src/pages/docs/components/"
     ++ componentName ++ ".tsx",
   "/home/sacha/repositories/brutalist-components/apps/website/src/pages/docs/components/BarChartPage.tsx",
   "/home/sacha/repositories/brutalist-components/apps/website/src/pages/docs/components/LineChartPage.tsx",
   "/home/sacha/repositories/brutalist-components/apps/website/src/pages/docs/components/TableOfContentsPage.tsx",
   "/home/sacha/repositories/brutalist-components/apps/website/src/pages/docs/ShapesPage.tsx",
   "/home/sacha/repositories/brutalist-components/apps/website/src/pages/docs/components/aspect-ratio.tsx",
   "/home/sacha/repositories/brutalist-components/apps/website/src/pages/docs/components/pagination.tsx"]

/-- The "basic documentation" record the revised extractor returns when no
path yields content (part_005 lines 715-727). -/
def defaultDoc (componentName : String) : DocumentationSection :=
  { title := capitalize componentName,
    description := "Documentation for " ++ componentName ++ " component",
    content := "# " ++ capitalize componentName
      ++ " Component\n\nDocumentation file not found. Please check the component\x27s source code for implementation details.",
    examples := [],
    accessibility := some { keyboardSupport := [], ariaAttributes := [], bestPractices := [] },
    apiReference := none }

/-- JS `a || b` for strings: `b` when `a` is empty. -/
def jsOrStr (a b : String) : String := if a.isEmpty then b else a

/-- First readable path of `paths` whose `existsSync` test passes, read;
empty string when none does (mirrors the `for`-loop with `break`). -/
def firstReadable (fs : FileRead) : List String → String
  | [] => ""
  | p :: rest =>
    match fs p with
    | .ok content => content
    | .error _ => firstReadable fs rest

/-- The revised extractor (part_005 lines 660-757): special-case read, then
the `potentialPaths` scan, then the default record, each step best-effort; on
any caught error a fallback record is returned instead of throwing. This
variant never raises. -/
def extractComponentDocumentationFallback (ex : HtmlExtractors) (fs : FileRead)
    (componentName : String) : DocumentationSection :=
  let contentSpecial :=
    match specialCases componentName with
    | some p => match fs p with | .ok c => c | .error _ => ""
    | none => ""
  let content :=
    if contentSpecial.isEmpty then firstReadable fs (potentialPaths componentName)
    else contentSpecial
  if content.isEmpty then defaultDoc componentName
  else
    { title := jsOrStr (ex.extractTitle content) (capitalize componentName),
      description := jsOrStr (ex.extractDescription content) (componentName ++ " component"),
      content := jsOrStr (ex.extractMainContent content)
        ("Documentation loaded from: " ++ docsPath componentName),
      examples := ex.extractExamples content,
      accessibility :=
        match ex.extractAccessibility content with
        | some a => some a
        | none => some { keyboardSupport := [], ariaAttributes := [], bestPractices := [] },
      apiReference := extractAPIReference content }

/-- The `guides` items of `DOCS_STRUCTURE`. -/
def DOCS_GUIDES : List String :=
  ["introduction", "installation", "typescript", "cli", "design-principles",
   "colors", "typography", "spacing", "animations", "shapes", "accessibility",
   "theming", "changelog"]

/-- The `components` items of `DOCS_STRUCTURE`. -/
def DOCS_COMPONENTS : List String :=
  ["accordion", "alert", "avatar", "badge", "bar-chart", "line-chart",
   "pie-chart", "area-chart", "aspect-ratio", "breadcrumb", "button", "card",
   "checkbox", "combobox", "command", "container", "context-menu", "dialog",
   "drawer", "dropdown", "hover-card", "input", "input-otp", "navigation",
   "pagination", "popover", "progress", "radio", "select", "separator",
   "sidebar", "skeleton", "slider", "spinner", "stack", "switch", "toggle",
   "typography", "table", "table-of-contents", "tabs", "textarea", "toast",
   "tooltip"]

/-- The `api` items of `DOCS_STRUCTURE`. -/
def DOCS_API : List String := ["types", "registry"]

/-- The hardcoded `DOCS_STRUCTURE` catalog: three sections. -/
def DOCS_STRUCTURE : List (String × List String) :=
  [("guides", DOCS_GUIDES), ("components", DOCS_COMPONENTS), ("api", DOCS_API)]

/-- The matches one section contributes: items containing the lowercased
query, each rendered `section/item`, in catalog order. -/
def docMatches (query : String) (sectionName : String) (items : List String) :
    List String :=
  (items.filter (fun item => strIncludes (jsToLower item) (jsToLower query))).map
    (fun item => sectionName ++ "/" ++ item)

/-- `searchDocumentation(query, section?)`. `section ? [section] : keys` uses
JS truthiness, so an empty-string section searches all three sections. A
truthy section absent from the catalog makes the source index `undefined` and
crash on `.forEach` (a TypeError), modelled as `none`. -/
def searchDocumentation (query : String) (sect : Option String) :
    Option (List String) :=
  let sectionsToSearch :=
    if jsTruthyOpt sect then [sect.getD ""] else DOCS_STRUCTURE.map Prod.fst
  List.foldl
    (fun acc sectionName =>
      match acc with
      | none => none
      | some res =>
        match DOCS_STRUCTURE.lookup sectionName with
        | none => none
        | some items => some (res ++ docMatches query sectionName items))
    (some []) sectionsToSearch

/-- `getAllDocumentationSections()`. -/
def getAllDocumentationSections : List (String × List String) := DOCS_STRUCTURE

/-! ## Concrete fixtures (from the spec's testable properties) -/

/-- The featured `button` component of the end-to-end fixture. -/
def e2eButton : RegistryComponent :=
  { name := "button", title := "Button", description := "A brutalist button",
    type := "registry:component", categories := ["action"], featured := true,
    url := "https://brutalist.precast.dev/registry/react/button.json" }

/-- The non-featured `card` component of the end-to-end fixture. -/
def e2eCard : RegistryComponent :=
  { name := "card", title := "Card", description := "A brutalist card",
    type := "registry:component", categories := ["display"], featured := false,
    url := "https://brutalist.precast.dev/registry/react/card.json" }

/-- The end-to-end fixture index: two components, two categories, no meta. -/
def e2eIndex : RegistryIndex :=
  { name := "brutalist-ui", description := "Brutalist UI registry",
    version := "1.0.0", framework := "react",
    baseUrl := "https://brutalist.precast.dev/registry/react",
    components := [e2eButton, e2eCard],
    categories :=
      [("action", { title := "Action", description := "Interactive components" }),
       ("display", { title := "Display", description := "Content display" })],
    meta := none }

/-- Five-component fixture for the search-composition test: exactly
`e2eButton` is in category `action`, featured, and matches `but`. -/
def searchFixture : RegistryIndex :=
  { name := "brutalist-ui", description := "Brutalist UI registry",
    version := "1.0.0", framework := "react",
    baseUrl := "https://brutalist.precast.dev/registry/react",
    components :=
      [e2eButton,
       { name := "card", title := "Card", description := "A content card",
         type := "registry:component", categories := ["display"], featured := true,
         url := "u2" },
       { name := "alert", title := "Alert", description := "Status banner",
         type := "registry:component", categories := ["action"], featured := false,
         url := "u3" },
       { name := "butter-toast", title := "Butter Toast", description := "Toast",
         type := "registry:component", categories := ["feedback"], featured := true,
         url := "u4" },
       { name := "input", title := "Input", description := "Form input",
         type := "registry:component", categories := ["forms"], featured := false,
         url := "u5" }],
    categories :=
      [("action", { title := "Action", description := "Interactive" }),
       ("display", { title := "Display", description := "Display" }),
       ("feedback", { title := "Feedback", description := "Feedback" }),
       ("forms", { title := "Forms", description := "Forms" })],
    meta := none }

/-- An index whose single component lists the `forms` category twice; legal
for the zod schema (`categories: z.array(z.string())`). -/
def dupCategoryIndex : RegistryIndex :=
  { name := "r", description := "d", version := "1", framework := "react",
    baseUrl := "b",
    components :=
      [{ name := "dup-button", title := "Dup", description := "d",
         type := "registry:component", categories := ["forms", "forms"],
         featured := false, url := "u" }],
    categories := [("forms", { title := "Forms", description := "Form controls" })],
    meta := none }

/-- Fixture with two `forms` components and an empty `display` category. -/
def formsDisplayIndex : RegistryIndex :=
  { name := "r", description := "d", version := "1", framework := "react",
    baseUrl := "b",
    components :=
      [{ name := "input", title := "Input", description := "i",
         type := "registry:component", categories := ["forms"], featured := false,
         url := "u1" },
       { name := "textarea", title := "Textarea", description := "t",
         type := "registry:component", categories := ["forms"], featured := false,
         url := "u2" }],
    categories :=
      [("forms", { title := "Forms", description := "Form controls" }),
       ("display", { title := "Display", description := "Content display" })],
    meta := none }

/-- An index whose component lists a `ghost` category that the index's
category map does not declare. -/
def ghostCategoryIndex : RegistryIndex :=
  { name := "r", description := "d", version := "1", framework := "react",
    baseUrl := "b",
    components :=
      [{ name := "button", title := "Button", description := "b",
         type := "registry:component", categories := ["action", "ghost"],
         featured := true, url := "u" }],
    categories := [("action", { title := "Action", description := "a" })],
    meta := none }

/-- A well-formed component detail used to exercise `fetchComponent`. -/
def buttonDetail : Component :=
  { schemaUrl := none, name := "button", type := some "registry:component",
    title := some "Button", description := "A brutalist button",
    author := none, version := "1.0.0", framework := some "react",
    frameworks := none, brutalistFeatures := none,
    categories := some ["action"], category := none, tags := none,
    dependencies := none, peerDependencies := none,
    files := [{ path := some "button.tsx", name := none, type := some "registry:ui",
                target := none, language := some "tsx", content := "export {}" }],
    lastUpdated := none }

/-- A component detail whose single file has neither `path` nor `name`. -/
def pathlessDetail : Component :=
  { schemaUrl := none, name := "broken", type := none, title := none,
    description := "broken", author := none, version := "1.0.0",
    framework := none, frameworks := none, brutalistFeatures := none,
    categories := none, category := none, tags := none, dependencies := none,
    peerDependencies := none,
    files := [{ path := none, name := none, type := none, target := none,
                language := none, content := "x" }],
    lastUpdated := none }

/-! ## Helper lemmas -/

/-- A string is an infix of any concatenation around it. -/
theorem str_infix_mid (a b c : String) : List.IsInfix b.data (a ++ b ++ c).data := by
  refine ⟨a.data, c.data, ?_⟩
  cases a
  cases b
  cases c
  simp [String.append]

/-- Association-list lookup misses exactly the keys outside the key list. -/
theorem lookup_eq_none_of_not_mem {β : Type} (l : List (String × β)) (k : String)
    (h : k ∉ l.map Prod.fst) : l.lookup k = none := by
  induction l with
  | nil => rfl
  | cons p t ih =>
    simp only [List.map_cons, List.mem_cons] at h
    push_neg at h
    obtain ⟨h1, h2⟩ := h
    have hb : (k == p.1) = false := by simpa [beq_iff_eq] using h1
    simp only [List.lookup, hb]
    exact ih h2

/-- A successful association-list lookup means the key is present. -/
theorem lookup_mem_keys {β : Type} (l : List (String × β)) (k : String) (v : β)
    (h : l.lookup k = some v) : k ∈ l.map Prod.fst := by
  induction l with
  | nil => simp [List.lookup] at h
  | cons p t ih =>
    by_cases hb : (k == p.1) = true
    · simp [beq_iff_eq] at hb
      simp [hb]
    · have hb' : (k == p.1) = false := by simpa using hb
      simp only [List.lookup, hb'] at h
      simp [ih h]

/-- Each search step shrinks the list to a sublist. -/
theorem categoryStep_sublist (category : Option String) (l : List RegistryComponent) :
    List.Sublist (categoryStep category l) l := by
  rcases category with _ | cat
  · exact List.Sublist.refl l
  · unfold categoryStep
    dsimp only
    by_cases he : cat.isEmpty
    · rw [if_pos he]
    · rw [if_neg he]
      exact l.filter_sublist

/-- The featured step shrinks the list to a sublist. -/
theorem featuredStep_sublist (featured : Option Bool) (l : List RegistryComponent) :
    List.Sublist (featuredStep featured l) l := by
  rcases featured with _ | b
  · exact List.Sublist.refl l
  · exact l.filter_sublist

/-- The text step shrinks the list to a sublist. -/
theorem queryStep_sublist (query : String) (l : List RegistryComponent) :
    List.Sublist (queryStep query l) l := by
  unfold queryStep
  split
  · exact l.filter_sublist
  · exact List.Sublist.refl l

/-- Membership across the category step. -/
theorem mem_categoryStep (category : Option String) (l : List RegistryComponent)
    (c : RegistryComponent) :
    c ∈ categoryStep category l ↔
      c ∈ l ∧ (∀ cat, category = some cat → cat.isEmpty = false →
        c.categories.contains cat = true) := by
  rcases category with _ | cat
  · simp [categoryStep]
  · unfold categoryStep
    by_cases he : cat.isEmpty
    · simp only [if_pos he]
      constructor
      · intro hm
        refine ⟨hm, fun x hx hxe => ?_⟩
        obtain rfl : cat = x := Option.some.inj hx
        rw [he] at hxe
        cases hxe
      · exact fun h => h.1
    · simp only [if_neg he, List.mem_filter]
      constructor
      · rintro ⟨hm, hc⟩
        refine ⟨hm, fun x hx _ => ?_⟩
        obtain rfl : cat = x := Option.some.inj hx
        exact hc
      · rintro ⟨hm, hc⟩
        exact ⟨hm, hc cat rfl (by simpa using he)⟩

/-- Membership across the featured step. -/
theorem mem_featuredStep (featured : Option Bool) (l : List RegistryComponent)
    (c : RegistryComponent) :
    c ∈ featuredStep featured l ↔
      c ∈ l ∧ (∀ b, featured = some b → c.featured = b) := by
  rcases featured with _ | b
  · simp [featuredStep]
  · simp only [featuredStep, List.mem_filter, beq_iff_eq]
    constructor
    · rintro ⟨hm, hb⟩
      refine ⟨hm, fun x hx => ?_⟩
      obtain rfl : b = x := Option.some.inj hx
      exact hb
    · rintro ⟨hm, hb⟩
      exact ⟨hm, hb b rfl⟩

/-- Membership across the text step. -/
theorem mem_queryStep (query : String) (l : List RegistryComponent)
    (c : RegistryComponent) :
    c ∈ queryStep query l ↔
      c ∈ l ∧ (trimNonEmpty query = true → matchesQuery query c = true) := by
  unfold queryStep
  by_cases ht : trimNonEmpty query
  · simp [ht, List.mem_filter]
  · simp [ht]

/-- When no component repeats a key, the occurrence total is the number of
components listing the key. -/
theorem categoryOccurrences_eq_filter_length (comps : List RegistryComponent)
    (k : String) (h : ∀ c ∈ comps, c.categories.count k ≤ 1) :
    categoryOccurrences comps k
      = (comps.filter (fun c => c.categories.contains k)).length := by
  induction comps with
  | nil => rfl
  | cons c t ih =>
    have hc := h c (List.mem_cons_self c t)
    have ht := ih (fun c' hm => h c' (List.mem_cons_of_mem c hm))
    simp only [categoryOccurrences, List.map_cons, List.sum_cons] at ht ⊢
    rw [List.filter_cons]
    by_cases hmem : k ∈ c.categories
    · have h1 : List.count k c.categories = 1 :=
        Nat.le_antisymm hc (List.count_pos_iff.mpr hmem)
      have hcon : c.categories.contains k = true := List.elem_iff.mpr hmem
      rw [hcon, h1, ht, if_pos rfl, List.length_cons]
      omega
    · have h0 : List.count k c.categories = 0 := List.count_eq_zero.mpr hmem
      have hcon : c.categories.contains k = false := by
        have hx : ¬ c.categories.contains k = true :=
          fun hx => hmem (List.elem_iff.mp hx)
        simpa using hx
      rw [hcon, h0, ht, if_neg (by simp)]
      omega

/-- When no component lists the key, the occurrence total is zero. -/
theorem categoryOccurrences_eq_zero (comps : List RegistryComponent) (k : String)
    (h : ∀ c ∈ comps, c.categories.contains k = false) :
    categoryOccurrences comps k = 0 := by
  induction comps with
  | nil => rfl
  | cons c t ih =>
    have hc := h c (List.mem_cons_self c t)
    have hmem : k ∉ c.categories := by
      intro hx
      have hco : c.categories.contains k = true := List.elem_iff.mpr hx
      rw [hc] at hco
      exact Bool.false_ne_true hco
    have ht := ih (fun c' hm => h c' (List.mem_cons_of_mem c hm))
    simp only [categoryOccurrences, List.map_cons, List.sum_cons] at *
    simp [List.count_eq_zero.mpr hmem, ht]

/-- The keys of the built categories object are the index map's keys. -/
theorem getCategoriesEntries_keys (idx : RegistryIndex) :
    (getCategoriesEntries idx).map Prod.fst = idx.categories.map Prod.fst := by
  unfold getCategoriesEntries
  rw [List.map_map]
  rfl

/-! ## Claim theorems -/

/-- Claim C1 (code bug): the shipped `extractComponentDocumentation`
(src/utils/docs.ts) does NOT satisfy the never-raises contract — when the
resolved file cannot be read it re-throws a wrapped error — while the revised
extractor carried by the repository returns exactly the claimed default
record (mechanically derived non-empty title, placeholder content, empty
examples). Evaluated at the failing input `accordion` with every read
failing. -/
theorem docs_extractor_throws_when_file_unreadable (ex : HtmlExtractors) (emsg : String) :
    extractComponentDocumentation ex (fun _ => .error emsg) "accordion"
      = .error ("Failed to extract documentation for accordion: " ++ emsg)
    ∧ extractComponentDocumentationFallback ex (fun _ => .error emsg) "accordion"
      = defaultDoc "accordion"
    ∧ (defaultDoc "accordion").title = "Accordion"
    ∧ (defaultDoc "accordion").title.isEmpty = false
    ∧ (defaultDoc "accordion").examples = [] := by
  refine ⟨rfl, rfl, by decide, by decide, rfl⟩

/-- Claim C2 (code bug): `main()` resolves the documented override priority
into `process.env.REGISTRY_BASE_URL`, but the registry client computes its
base URL from `NODE_ENV` alone and never reads that variable: started with
`--registry-url https://custom-registry.example` and `NODE_ENV` unset, the
client still requests the localhost development endpoint. -/
theorem registry_client_ignores_override :
    parseArgsRegistryUrl ["--registry-url", "https://custom-registry.example"]
      = some "https://custom-registry.example"
    ∧ mainRegistryEnvValue (some "https://custom-registry.example") none false
      = "https://custom-registry.example"
    ∧ registryIndexRequestUrl none = "http://localhost:3000/registry/react/index.json"
    ∧ clientRegistryBaseUrl none ≠ "https://custom-registry.example"
    ∧ clientRegistryBaseUrl (some "production")
        = "https://brutalist.precast.dev/registry/react" := by
  refine ⟨by decide, by decide, by decide, by decide, by decide⟩

/-- Claim C3: read-through TTL cache semantics with TTL 300000 ms —
set-then-get returns the value; an entry whose age reaches the TTL reads as
absent yet stays stored; two index fetches within the TTL window issue
exactly one network call, the second served from cache with no state change. -/
theorem cache_read_through_ttl :
    CACHE_TTL = 300000
    ∧ (∀ (α : Type) (c : CacheMap α) (k : String) (v : α) (now : Int),
        getFromCache (setCache c k v now) k now = some v)
    ∧ (∀ (α : Type) (c : CacheMap α) (k : String) (v : α) (t now : Int),
        CACHE_TTL ≤ now - t →
          getFromCache (setCache c k v t) k now = none
          ∧ (k, v, t) ∈ setCache c k v t)
    ∧ (∀ (idx : RegistryIndex) (st : FetchState RegistryIndex) (t₁ t₂ : Int)
         (http₂ : HttpResponse RegistryIndex),
        getFromCache st.cache "registry-index" t₁ = none →
        t₂ - t₁ < CACHE_TTL →
          (fetchRegistryIndex (.ok (.wellShaped idx)) st t₁).1 = .success idx
          ∧ (fetchRegistryIndex http₂ (fetchRegistryIndex (.ok (.wellShaped idx)) st t₁).2 t₂).1
              = .success idx
          ∧ (fetchRegistryIndex http₂ (fetchRegistryIndex (.ok (.wellShaped idx)) st t₁).2 t₂).2
              = (fetchRegistryIndex (.ok (.wellShaped idx)) st t₁).2
          ∧ ((fetchRegistryIndex http₂ (fetchRegistryIndex (.ok (.wellShaped idx)) st t₁).2 t₂).2).networkCalls
              = st.networkCalls + 1) := by
  refine ⟨rfl, ?_, ?_, ?_⟩
  · intro α c k v now
    have hfind : List.find? (fun e => e.1 == k)
        ((k, v, now) :: c.filter (fun e => !(e.1 == k))) = some (k, v, now) := by
      apply List.find?_cons_of_pos
      simp
    unfold getFromCache setCache
    rw [hfind]
    simp only [CACHE_TTL]
    rw [if_pos (by omega)]
  · intro α c k v t now hexp
    have hfind : List.find? (fun e => e.1 == k)
        ((k, v, t) :: c.filter (fun e => !(e.1 == k))) = some (k, v, t) := by
      apply List.find?_cons_of_pos
      simp
    constructor
    · unfold getFromCache setCache
      rw [hfind]
      simp only [CACHE_TTL] at *
      rw [if_neg (by omega)]
    · exact List.mem_cons_self _ _
  · intro idx st t₁ t₂ http₂ hmiss httl
    have h1 : fetchRegistryIndex (.ok (.wellShaped idx)) st t₁
        = (.success idx,
           { cache := setCache st.cache "registry-index" idx t₁,
             networkCalls := st.networkCalls + 1 }) := by
      unfold fetchRegistryIndex
      rw [hmiss]
      rfl
    have hfind : List.find? (fun e => e.1 == "registry-index")
        (("registry-index", idx, t₁) :: st.cache.filter (fun e => !(e.1 == "registry-index")))
        = some ("registry-index", idx, t₁) := by
      apply List.find?_cons_of_pos
      simp
    have hhit : getFromCache (setCache st.cache "registry-index" idx t₁) "registry-index" t₂
        = some idx := by
      unfold getFromCache setCache
      rw [hfind]
      exact if_pos httl
    have h2 : fetchRegistryIndex http₂ (fetchRegistryIndex (.ok (.wellShaped idx)) st t₁).2 t₂
        = (.success idx, (fetchRegistryIndex (.ok (.wellShaped idx)) st t₁).2) := by
      rw [h1]
      unfold fetchRegistryIndex
      rw [hhit]
    refine ⟨by rw [h1], by rw [h2], by rw [h2], ?_⟩
    rw [h2, h1]

/-- Witness for C3: concrete cache hits, expiry at exactly the TTL, and a
single network call across two fetches 1000 ms apart. -/
theorem cache_read_through_ttl_witness :
    getFromCache (setCache ([] : CacheMap Nat) "k" 7 0) "k" 0 = some 7
    ∧ getFromCache (setCache ([] : CacheMap Nat) "k" 7 0) "k" 300000 = none
    ∧ ("k", 7, (0 : Int)) ∈ setCache ([] : CacheMap Nat) "k" 7 0
    ∧ (fetchRegistryIndex (.transportError "down")
        (fetchRegistryIndex (.ok (.wellShaped e2eIndex)) { cache := [], networkCalls := 0 } 0).2
        1000).1 = .success e2eIndex
    ∧ ((fetchRegistryIndex (.transportError "down")
        (fetchRegistryIndex (.ok (.wellShaped e2eIndex)) { cache := [], networkCalls := 0 } 0).2
        1000).2).networkCalls = 1 := by
  have h1 := (cache_read_through_ttl.2.1) Nat [] "k" 7 0
  have h2 := (cache_read_through_ttl.2.2.1) Nat [] "k" 7 0 300000 (by decide)
  have h3 := (cache_read_through_ttl.2.2.2) e2eIndex { cache := [], networkCalls := 0 } 0 1000
    (.transportError "down") rfl (by decide)
  exact ⟨h1, h2.1, h2.2, h3.2.1, h3.2.2.2⟩

/-- Claim C4: `searchComponents` narrows by category membership (when a
truthy category is given), then featured equality (when given), then the
case-insensitive substring match, with an all-whitespace query matching
everything that survived; order is the index order (a sublist, no
re-ranking); the empty unfiltered search returns every component with `total`
the component count. -/
theorem searchComponents_filter_semantics (idx : RegistryIndex) (query : String)
    (category : Option String) (featured : Option Bool) :
    List.Sublist (searchComponents query category featured idx).results idx.components
    ∧ (searchComponents query category featured idx).total
        = (searchComponents query category featured idx).results.length
    ∧ (searchComponents query category featured idx).query = query
    ∧ (searchComponents query category featured idx).filters
        = { category := category, featured := featured }
    ∧ (∀ c, c ∈ (searchComponents query category featured idx).results ↔
        c ∈ idx.components
        ∧ (∀ cat, category = some cat → cat.isEmpty = false →
            c.categories.contains cat = true)
        ∧ (∀ b, featured = some b → c.featured = b)
        ∧ (trimNonEmpty query = true → matchesQuery query c = true))
    ∧ (searchComponents "" none none idx).results = idx.components
    ∧ (searchComponents "" none none idx).total = idx.components.length := by
  refine ⟨?_, rfl, rfl, rfl, ?_, rfl, rfl⟩
  · exact ((queryStep_sublist query _).trans
      (featuredStep_sublist featured _)).trans (categoryStep_sublist category _)
  · intro c
    rw [show (searchComponents query category featured idx).results
        = queryStep query (featuredStep featured (categoryStep category idx.components))
        from rfl]
    rw [mem_queryStep, mem_featuredStep, mem_categoryStep]
    tauto

/-- Witness for C4: on the five-component fixture the composed search keeps
exactly the button; the empty search applied through the theorem returns all
five in order. -/
theorem searchComponents_filter_semantics_witness :
    (searchComponents "but" (some "action") (some true) searchFixture).results = [e2eButton]
    ∧ (searchComponents "but" (some "action") (some true) searchFixture).total = 1
    ∧ (searchComponents "" none none searchFixture).results = searchFixture.components
    ∧ (searchComponents "" none none searchFixture).total = 5 := by
  refine ⟨by decide, by decide,
    (searchComponents_filter_semantics searchFixture "" none none).2.2.2.2.2.1,
    by decide⟩

/-- Claim C5: on a cache miss `fetchComponent` classifies failures — 404
becomes the not-found error naming the component, other transport failures
keep the fetch-error message, a body whose files entry has neither `path` nor
`name` is rejected at parse time, a malformed body is a parse error, and a
valid body succeeds. -/
theorem fetchComponent_error_classification (componentName : String)
    (st : FetchState Component) (now : Int)
    (hmiss : getFromCache st.cache ("component-" ++ componentName) now = none) :
    ((fetchComponent componentName .notFound st now).1
        = .notFoundError ("Component \x27" ++ componentName ++ "\x27 not found in registry")
      ∧ List.IsInfix componentName.data
          ("Component \x27" ++ componentName ++ "\x27 not found in registry").data)
    ∧ (∀ msg, (fetchComponent componentName (.transportError msg) st now).1
        = .fetchError ("Failed to fetch component \x27" ++ componentName ++ "\x27: " ++ msg))
    ∧ (∀ c : Component, (∃ f ∈ c.files, f.path = none ∧ f.name = none) →
        (fetchComponent componentName (.ok (.wellShaped c)) st now).1
          = .parseError ("Failed to parse component \x27" ++ componentName ++ "\x27: "
              ++ "Either \x27path\x27 or \x27name\x27 must be provided"))
    ∧ (∀ desc, (fetchComponent componentName (.ok (.malformed desc)) st now).1
        = .parseError ("Failed to parse component \x27" ++ componentName ++ "\x27: " ++ desc))
    ∧ (∀ c : Component, c.files.all componentFileOk = true →
        (fetchComponent componentName (.ok (.wellShaped c)) st now).1 = .success c) := by
  refine ⟨⟨?_, str_infix_mid "Component \x27" componentName "\x27 not found in registry"⟩,
    ?_, ?_, ?_, ?_⟩
  · unfold fetchComponent
    rw [hmiss]
  · intro msg
    unfold fetchComponent
    rw [hmiss]
  · intro c hf
    obtain ⟨f, hfmem, hp, hn⟩ := hf
    have hbad : c.files.all componentFileOk = false := by
      rw [List.all_eq_false]
      refine ⟨f, hfmem, ?_⟩
      rw [show componentFileOk f = (jsTruthyOpt f.path || jsTruthyOpt f.name) from rfl,
        hp, hn]
      decide
    have hparse : parseComponent (JsonBody.wellShaped c)
        = Except.error "Either \x27path\x27 or \x27name\x27 must be provided" := by
      show (if c.files.all componentFileOk = true then Except.ok c
            else Except.error "Either \x27path\x27 or \x27name\x27 must be provided")
          = Except.error "Either \x27path\x27 or \x27name\x27 must be provided"
      refine if_neg ?_
      intro hx
      rw [hx] at hbad
      exact Bool.noConfusion hbad
    unfold fetchComponent
    rw [hmiss]
    dsimp only
    rw [hparse]
  · intro desc
    unfold fetchComponent
    rw [hmiss]
    rfl
  · intro c hok
    have hparse : parseComponent (JsonBody.wellShaped c) = Except.ok c := by
      show (if c.files.all componentFileOk = true then Except.ok c
            else Except.error "Either \x27path\x27 or \x27name\x27 must be provided")
          = Except.ok c
      exact if_pos hok
    unfold fetchComponent
    rw [hmiss]
    dsimp only
    rw [hparse]

/-- Witness for C5: a missing component, a pathless-file body and a valid
body, each classified on an empty cache. -/
theorem fetchComponent_error_classification_witness :
    (fetchComponent "missing" .notFound { cache := [], networkCalls := 0 } 0).1
        = .notFoundError "Component \x27missing\x27 not found in registry"
    ∧ (fetchComponent "broken" (.ok (.wellShaped pathlessDetail))
        { cache := [], networkCalls := 0 } 0).1
        = .parseError "Failed to parse component \x27broken\x27: Either \x27path\x27 or \x27name\x27 must be provided"
    ∧ (fetchComponent "button" (.ok (.wellShaped buttonDetail))
        { cache := [], networkCalls := 0 } 0).1 = .success buttonDetail := by
  refine ⟨?_, ?_, ?_⟩
  · exact (fetchComponent_error_classification "missing"
      { cache := [], networkCalls := 0 } 0 rfl).1.1
  · exact (fetchComponent_error_classification "broken"
      { cache := [], networkCalls := 0 } 0 rfl).2.2.1 pathlessDetail
      ⟨{ path := none, name := none, type := none, target := none,
         language := none, content := "x" }, by decide, rfl, rfl⟩
  · exact (fetchComponent_error_classification "button"
      { cache := [], networkCalls := 0 } 0 rfl).2.2.2.2 buttonDetail (by decide)

/-- Counterexample to claim C6 as stated: with one component listing `forms`
twice, `getCategories` reports count 2 for `forms` while the number of
components whose categories list contains `forms` is 1. -/
theorem getCategories_counts_occurrences_not_components :
    ((getCategories dupCategoryIndex).categories.lookup "forms").map
        (fun e => e.count) = some 2
    ∧ (dupCategoryIndex.components.filter
        (fun c => c.categories.contains "forms")).length = 1 := by
  exact ⟨by decide, by decide⟩

/-- Claim C6 (amended): each category's count is the total number of
occurrences of the key across components' categories lists; when no component
repeats a key this equals the number of components listing it; categories
matched by no component keep count 0; `total` is the category-map size. -/
theorem getCategories_spec (idx : RegistryIndex) :
    (getCategories idx).total = idx.categories.length
    ∧ (getCategories idx).categories.map Prod.fst = idx.categories.map Prod.fst
    ∧ (∀ p ∈ (getCategories idx).categories,
        p.2.count = categoryOccurrences idx.components p.1)
    ∧ (∀ p ∈ (getCategories idx).categories,
        (∀ c ∈ idx.components, List.count p.1 c.categories ≤ 1) →
        p.2.count = (idx.components.filter (fun c => c.categories.contains p.1)).length)
    ∧ (∀ p ∈ (getCategories idx).categories,
        (∀ c ∈ idx.components, c.categories.contains p.1 = false) →
        p.2.count = 0) := by
  have hentry : ∀ p ∈ (getCategories idx).categories,
      p.2.count = categoryOccurrences idx.components p.1 := by
    intro p hp
    rw [show (getCategories idx).categories = getCategoriesEntries idx from rfl] at hp
    unfold getCategoriesEntries at hp
    rw [List.mem_map] at hp
    obtain ⟨q, _, rfl⟩ := hp
    rfl
  refine ⟨?_, getCategoriesEntries_keys idx, hentry, ?_, ?_⟩
  · simp [getCategories, getCategoriesEntries]
  · intro p hp hle
    rw [hentry p hp]
    exact categoryOccurrences_eq_filter_length idx.components p.1 hle
  · intro p hp hnone
    rw [hentry p hp]
    exact categoryOccurrences_eq_zero idx.components p.1 hnone

/-- Witness for C6: the forms/display fixture reports counts 2 and 0 with
total 2. -/
theorem getCategories_spec_witness :
    ((getCategories formsDisplayIndex).categories.lookup "forms").map
        (fun e => e.count) = some 2
    ∧ ((getCategories formsDisplayIndex).categories.lookup "display").map
        (fun e => e.count) = some 0
    ∧ (getCategories formsDisplayIndex).total = 2 := by
  refine ⟨by decide, by decide, (getCategories_spec formsDisplayIndex).1⟩

/-- Claim C7: `getComponentsByCategory` keeps exactly the components listing
the category, `total` is their number, and `categoryInfo` is null exactly
when the key is absent from the index's category map — in particular a
nonexistent category yields null info and an empty list. -/
theorem getComponentsByCategory_spec (idx : RegistryIndex) (category : String) :
    (∀ c, c ∈ (getComponentsByCategory idx category).components ↔
        c ∈ idx.components ∧ c.categories.contains category = true)
    ∧ (getComponentsByCategory idx category).total
        = (getComponentsByCategory idx category).components.length
    ∧ (getComponentsByCategory idx category).category = category
    ∧ (getComponentsByCategory idx category).categoryInfo = idx.categories.lookup category
    ∧ (category ∉ idx.categories.map Prod.fst →
        (getComponentsByCategory idx category).categoryInfo = none)
    ∧ (∀ info, (getComponentsByCategory idx category).categoryInfo = some info →
        category ∈ idx.categories.map Prod.fst)
    ∧ ((∀ c ∈ idx.components, c.categories.contains category = false) →
        (getComponentsByCategory idx category).components = []) := by
  refine ⟨?_, rfl, rfl, rfl, ?_, ?_, ?_⟩
  · intro c
    rw [show (getComponentsByCategory idx category).components
        = idx.components.filter (fun c => c.categories.contains category) from rfl]
    exact List.mem_filter
  · intro h
    exact lookup_eq_none_of_not_mem idx.categories category h
  · intro info h
    exact lookup_mem_keys idx.categories category info h
  · intro h
    rw [show (getComponentsByCategory idx category).components
        = idx.components.filter (fun c => c.categories.contains category) from rfl]
    rw [List.filter_eq_nil_iff]
    intro c hc
    rw [h c hc]
    decide

/-- Witness for C7: on the two-component fixture, `nonexistent` yields null
info and no components, while `action` yields the button. -/
theorem getComponentsByCategory_spec_witness :
    (getComponentsByCategory e2eIndex "nonexistent").categoryInfo = none
    ∧ (getComponentsByCategory e2eIndex "nonexistent").components = []
    ∧ (getComponentsByCategory e2eIndex "action").components = [e2eButton] := by
  refine ⟨(getComponentsByCategory_spec e2eIndex "nonexistent").2.2.2.2.1 (by decide),
    by decide, by decide⟩

/-- Claim C8: `getRegistryInfo` reports component count, featured count,
category-map size and a null `lastUpdated` when `meta` is absent, and
`getFeaturedComponents` keeps the featured components in order; on the
two-component fixture the stats are 2/1/2 and featured is exactly the
button. -/
theorem registry_info_stats_spec (idx : RegistryIndex) :
    (getRegistryInfo idx).stats.totalComponents = idx.components.length
    ∧ (getRegistryInfo idx).stats.featuredComponents
        = (idx.components.filter (fun c => c.featured)).length
    ∧ (getRegistryInfo idx).stats.categoriesCount = idx.categories.length
    ∧ (getRegistryInfo idx).registry = idx
    ∧ (idx.meta = none → (getRegistryInfo idx).stats.lastUpdated = none)
    ∧ (getFeaturedComponents idx).components = idx.components.filter (fun c => c.featured)
    ∧ (getFeaturedComponents idx).total
        = (idx.components.filter (fun c => c.featured)).length
    ∧ (getFeaturedComponents e2eIndex).components = [e2eButton]
    ∧ (getFeaturedComponents e2eIndex).total = 1
    ∧ (getRegistryInfo e2eIndex).stats.totalComponents = 2
    ∧ (getRegistryInfo e2eIndex).stats.featuredComponents = 1
    ∧ (getRegistryInfo e2eIndex).stats.categoriesCount = 2 := by
  refine ⟨rfl, rfl, ?_, rfl, ?_, rfl, rfl, by decide, by decide, by decide,
    by decide, by decide⟩
  · rw [show (getRegistryInfo idx).stats.categoriesCount
        = (idx.categories.map Prod.fst).length from rfl]
    exact List.length_map idx.categories Prod.fst
  · intro h
    rw [show (getRegistryInfo idx).stats.lastUpdated
        = (match idx.meta with
           | some m => if m.lastUpdated.isEmpty then none else some m.lastUpdated
           | none => none) from rfl, h]

/-- Witness for C8: `lastUpdated` is null on the meta-less fixture, through
the theorem. -/
theorem registry_info_stats_spec_witness :
    (getRegistryInfo e2eIndex).stats.lastUpdated = none
    ∧ (getRegistryInfo e2eIndex).stats.featuredComponents = 1 := by
  exact ⟨(registry_info_stats_spec e2eIndex).2.2.2.2.1 rfl,
    (registry_info_stats_spec e2eIndex).2.2.2.2.2.2.2.2.2.2.1⟩

/-- Counterexample to claim C9 as stated: a supplied section outside the
catalog does not yield the empty match list — the source indexes
`DOCS_STRUCTURE` with an unknown key and crashes on `.forEach` (modelled as
`none`). -/
theorem searchDocumentation_unknown_section_crashes :
    searchDocumentation "types" (some "bogus") = none
    ∧ searchDocumentation "types" (some "bogus") ≠ some [] := by
  exact ⟨by decide, by decide⟩

/-- Claim C9 (amended): `searchDocumentation` searches the fixed catalog
only — all three sections when the section argument is absent or empty, just
the named section when it is a catalog key — returning the `section/item`
strings whose item contains the query case-insensitively; a truthy section
outside the catalog crashes instead of returning an empty list. -/
theorem searchDocumentation_catalog_spec (query : String) :
    searchDocumentation query none
      = some (docMatches query "guides" DOCS_GUIDES
          ++ docMatches query "components" DOCS_COMPONENTS
          ++ docMatches query "api" DOCS_API)
    ∧ searchDocumentation query (some "") = searchDocumentation query none
    ∧ (∀ s items, s.isEmpty = false → DOCS_STRUCTURE.lookup s = some items →
        searchDocumentation query (some s) = some (docMatches query s items))
    ∧ (∀ s, s.isEmpty = false → DOCS_STRUCTURE.lookup s = none →
        searchDocumentation query (some s) = none)
    ∧ (∀ sectionName items x, x ∈ docMatches query sectionName items ↔
        ∃ item ∈ items, strIncludes (jsToLower item) (jsToLower query) = true
          ∧ x = sectionName ++ "/" ++ item) := by
  refine ⟨rfl, rfl, ?_, ?_, ?_⟩
  · intro s items hne hlookup
    have ht : jsTruthyOpt (some s) = true := by simp [jsTruthyOpt, hne]
    simp only [searchDocumentation, ht, if_true, Option.getD_some, List.foldl_cons,
      List.foldl_nil, hlookup]
    simp
  · intro s hne hlookup
    have ht : jsTruthyOpt (some s) = true := by simp [jsTruthyOpt, hne]
    simp only [searchDocumentation, ht, if_true, Option.getD_some, List.foldl_cons,
      List.foldl_nil, hlookup]
  · intro sectionName items x
    simp only [docMatches, List.mem_map, List.mem_filter]
    constructor
    · rintro ⟨item, ⟨hm, hq⟩, rfl⟩
      exact ⟨item, hm, hq, rfl⟩
    · rintro ⟨item, hm, hq, rfl⟩
      exact ⟨item, ⟨hm, hq⟩, rfl⟩

/-- Witness for C9: a full-catalog search, a section-restricted hit through
the theorem, and a section-restricted miss. -/
theorem searchDocumentation_catalog_spec_witness :
    searchDocumentation "otp" none = some ["components/input-otp"]
    ∧ searchDocumentation "types" (some "api") = some ["api/types"]
    ∧ searchDocumentation "zzz" (some "guides") = some [] := by
  refine ⟨by decide, ?_, ?_⟩
  · rw [(searchDocumentation_catalog_spec "types").2.2.1 "api" DOCS_API
      (by decide) (by decide)]
    decide
  · rw [(searchDocumentation_catalog_spec "zzz").2.2.1 "guides" DOCS_GUIDES
      (by decide) (by decide)]
    decide

/-- Claim C10: the key set of the map `getCategories` returns equals the key
set of the index's category map — a key appearing only inside components'
categories lists is omitted (its computed count is discarded) and does not
contribute to `total`. -/
theorem getCategories_keys_spec (idx : RegistryIndex) :
    (getCategories idx).categories.map Prod.fst = idx.categories.map Prod.fst
    ∧ (getCategories idx).total = idx.categories.length
    ∧ (∀ k, k ∈ (getCategories idx).categories.map Prod.fst ↔
        k ∈ idx.categories.map Prod.fst)
    ∧ (∀ k, k ∉ idx.categories.map Prod.fst →
        (getCategories idx).categories.lookup k = none
        ∧ k ∉ (getCategories idx).categories.map Prod.fst) := by
  have hkeys : (getCategories idx).categories.map Prod.fst
      = idx.categories.map Prod.fst := getCategoriesEntries_keys idx
  refine ⟨hkeys, ?_, fun k => by rw [hkeys], fun k hk => ⟨?_, ?_⟩⟩
  · simp [getCategories, getCategoriesEntries]
  · apply lookup_eq_none_of_not_mem
    rw [hkeys]
    exact hk
  · rw [hkeys]
    exact hk

/-- Witness for C10: the `ghost` key listed by a component but absent from
the category map is not a key of the result. -/
theorem getCategories_keys_spec_witness :
    (getCategories ghostCategoryIndex).categories.lookup "ghost" = none
    ∧ (getCategories ghostCategoryIndex).categories.map Prod.fst = ["action"]
    ∧ (getCategories ghostCategoryIndex).total = 1 := by
  refine ⟨((getCategories_keys_spec ghostCategoryIndex).2.2.2 "ghost" (by decide)).1,
    by decide, by decide⟩

end Brutalist
